import Mathlib

/-!
Verification of the X32 stompbox widget event engine
(`src/src/x32stompbox.cpp`) against its natural-language specification.

The shallow embedding below translates the relevant parts of the firmware:

* `OSCWidget` mirrors the C++ class of the same name (the `Button` member is
  replaced by the per-tick edge event fed to `buttonAction`, and C `float` is
  modelled as `ℚ`, exact for every value the claims mention).
* `buttonAction` is the per-widget, per-tick body of `taskButtonsLoop`
  (lines 413-434): the press/hold/release discrimination that produces an
  action code, together with its mutation of `pressedMillis` / `wasPressed`.
* `dispatch` is the dispatch block of `taskButtonsLoop` (lines 444-510):
  message composition, the optional confirmation probe, the MIDI SysEx frame
  and the optional local acknowledgement flash, in source order.
* `midiBuildCommand` models the `strcat`-based SysEx construction
  (lines 268-293).  C strings are byte lists read up to the first zero byte
  (`cstr`); note `midiHeader` contains an interior `0x00`, and the spacer and
  footer arrays are modelled charitably as contributing exactly their
  declared bytes (the source arrays carry no terminator of their own).
* `processMsgWidget` / `processMsg` are the inbound reconciliation of
  `taskUDPLoop` (lines 570-625) for one parsed, well-formed message.
* `modeSwitchStep` is the mode-switch handler of `taskButtonsLoop`
  (lines 399-409); `pokeCycle` is one iteration of `taskPokeOSCLoop`
  (lines 652-698), returning its ordered event trace.
-/

namespace X32

/-! ## Constants (source lines 169-172, 227-235) -/

def action_NOTHING : Int := -1

def action_PRESS : Int := 1

def action_LONG_PRESS : Int := 2

def LONG_PRESS_DURATION : Nat := 3000

inductive PinLevel
  | low
  | high
deriving DecidableEq

/-- The firmware is built with the active-low branch (`#if true`), so the
"active" indicator level `LED_PIN_ON` is `LOW`. -/
def LED_PIN_ON : PinLevel := PinLevel.low

def LED_PIN_OFF : PinLevel := PinLevel.high

/-! ## Widget model (class `OSCWidget`, source lines 78-158) -/

structure OSCWidget where
  friendlyDebugName : String
  buttonPin : Nat
  ledPin : Nat
  actionTrigger : Int
  pressedMillis : Nat
  wasPressed : Bool
  isOscToggle : Bool
  isReverseLed : Bool
  oscAddress : String
  oscPayload_s : String
  oscState : Int
  oscPayload_i : Int
  oscPayload_f : ℚ
deriving DecidableEq

/-- The `OSCWidget` constructor (source lines 99-126): `oscState` starts at 0
and `wasPressed` at `false`; `pressedMillis` is left uninitialised in the
source and is modelled as 0 (it is always written before being read, since
`wasPressed` starts `false`). -/
def mkWidget (name : String) (bPin lPin : Nat) (trigger : Int)
    (isToggle isReverse : Bool) (addr pay : String) (idx : Int) (f : ℚ) :
    OSCWidget :=
  { friendlyDebugName := name
    buttonPin := bPin
    ledPin := lPin
    actionTrigger := trigger
    pressedMillis := 0
    wasPressed := false
    isOscToggle := isToggle
    isReverseLed := isReverse
    oscAddress := addr
    oscPayload_s := pay
    oscState := 0
    oscPayload_i := idx
    oscPayload_f := f }

/-- The configured widget table `myWidgets` (source lines 188-198). -/
def bttnALong : OSCWidget :=
  mkWidget "Bttn A__" 12 13 action_LONG_PRESS false false "/load" "snippet" 99 (-1)

def buttonA : OSCWidget :=
  mkWidget "Button A" 12 13 action_PRESS false false "/load" "snippet" 13 (-1)

def buttonB : OSCWidget :=
  mkWidget "Button B" 14 15 action_PRESS false false "/load" "snippet" 15 (-1)

def buttonC : OSCWidget :=
  mkWidget "Button C" 27 2 action_PRESS false false "/load" "snippet" 12 (-1)

def buttonD : OSCWidget :=
  mkWidget "Button D" 26 0 action_PRESS false false "/load" "snippet" 11 (-1)

def buttonE : OSCWidget :=
  mkWidget "Button E" 25 4 action_PRESS true true "/dca/5/on" "" (-1) (-1)

def buttonF : OSCWidget :=
  mkWidget "Button F" 33 5 action_PRESS true false "/config/mute/6" "" (-1) (-1)

def myWidgets : List OSCWidget :=
  [bttnALong, buttonA, buttonB, buttonC, buttonD, buttonE, buttonF]

/-- The Fader configuration from the commented example widget in the table
(source line 207), with its scalar abstracted. -/
def faderExample (v : ℚ) : OSCWidget :=
  mkWidget "Example" 35 23 action_NOTHING false false "/ch/02/mix/09/level"
    "" (-1) v

/-- The semantics kind of a widget, derived from the sentinel encoding used
throughout the source: `isOscToggle` marks a Toggle, otherwise a non-negative
`oscPayload_f` marks a Fader, otherwise the widget is a Fire (snippet). -/
inductive WidgetKind
  | toggle
  | fader
  | fire
deriving DecidableEq

def widgetKind (w : OSCWidget) : WidgetKind :=
  if w.isOscToggle then WidgetKind.toggle
  else if 0 ≤ w.oscPayload_f then WidgetKind.fader
  else WidgetKind.fire

/-! ## Input state machine (`taskButtonsLoop`, source lines 413-434)

The external `Button` collaborator reports, per polling tick, whether the
debounced pin state toggled and the current level; this is modelled as one
`ButtonEvent` per tick. -/

inductive ButtonEvent
  | pressedEdge
  | releasedEdge
  | noEdge
deriving DecidableEq

/-- One per-widget polling tick of `taskButtonsLoop` (lines 413-434):
returns the updated widget and the action code for this tick. -/
def buttonAction (w : OSCWidget) (ev : ButtonEvent) (now : Nat) :
    OSCWidget × Int :=
  match ev with
  | ButtonEvent.pressedEdge =>
      ({ w with pressedMillis := now, wasPressed := true }, action_PRESS)
  | ButtonEvent.releasedEdge =>
      ({ w with wasPressed := false }, action_NOTHING)
  | ButtonEvent.noEdge =>
      if w.wasPressed ∧ LONG_PRESS_DURATION < now - w.pressedMillis then
        ({ w with wasPressed := false }, action_LONG_PRESS)
      else (w, action_NOTHING)

/-- The dispatch guard of line 444: the widget's action fires on this tick
iff the tick's action code equals its trigger and is not `action_NOTHING`. -/
def emits (w : OSCWidget) (ev : ButtonEvent) (now : Nat) : Bool :=
  let a := (buttonAction w ev now).2
  a == w.actionTrigger && a != action_NOTHING

/-- Number of times the widget's own action fires along a list of ticks. -/
def countEmits (w : OSCWidget) : List (ButtonEvent × Nat) → Nat
  | [] => 0
  | e :: rest =>
      (if emits w e.1 e.2 then 1 else 0) +
        countEmits (buttonAction w e.1 e.2).1 rest

/-- One physical hold: a press edge at `t0`, hold ticks at the times in `ts`,
then a release edge at `tr`. -/
def holdTrace (t0 : Nat) (ts : List Nat) (tr : Nat) :
    List (ButtonEvent × Nat) :=
  (ButtonEvent.pressedEdge, t0) ::
    (ts.map fun t => (ButtonEvent.noEdge, t)) ++ [(ButtonEvent.releasedEdge, tr)]

/-! ## Command codec (`midiBuildCommand`, source lines 160-167 and 268-293) -/

/-- Bytes of an ASCII string (all OSC addresses and payloads in the source
are ASCII literals). -/
def strBytes (s : String) : List Nat := s.data.map Char.toNat

/-- The value a `char` array denotes when read as a C string: its bytes up to
(excluding) the first zero byte, as `strcat` reads it. -/
def cstr (a : List Nat) : List Nat := a.takeWhile fun b => b != 0

/-- Source line 162: the declared X32 OSC preamble bytes.  Note the interior
`0x00` at index 1: read as a C string this array denotes `[0xF0]` only. -/
def midiHeader : List Nat := [0xF0, 0x00, 0x20, 0x32, 0x32]

def midiSpacer : List Nat := [0x20]

def midiFooter : List Nat := [0xF7]

/-- `midiBuildCommand` (source lines 268-293): a chain of `strcat` calls into
the 64-byte `bigMidiCommand` buffer, with no length checking.  Each
appended array contributes its C-string value (`cstr`). -/
def midiBuildCommand (oscCommand oscArgument : String) : List Nat :=
  cstr midiHeader ++ strBytes oscCommand ++ cstr midiSpacer ++
    strBytes oscArgument ++ cstr midiFooter

/-- The C cast `(int)` applied to a real value: truncation toward zero. -/
def cIntCast (q : ℚ) : Int := if 0 ≤ q then ⌊q⌋ else ⌈q⌉

/-- C `itoa(n, buf, 10)`: the decimal rendering of an integer. -/
def itoa (n : Int) : String := toString n

/-! ## Dispatch engine (`taskButtonsLoop`, source lines 444-510) -/

inductive OSCArg
  | int (n : Int)
  | float (x : ℚ)
  | str (s : String)
deriving DecidableEq

structure OSCMsg where
  addr : String
  args : List OSCArg
deriving DecidableEq

inductive DispatchEvent
  | sendOSC (m : OSCMsg)
  | sendProbe (addr : String)
  | sendMidi (frame : List Nat)
  | flashLed (pin : Nat)
deriving DecidableEq

/-- Message composition and widget mutation of lines 447-476: Toggle flips
state and rewrites the payload string to "ON"/"OFF"; Fader adds the scalar
and rewrites the payload string to the decimal of `(int)(f*127 + 0.5)`;
Fire adds the string payload if non-empty, then the index if non-negative. -/
def dispatchArgs (w : OSCWidget) : OSCWidget × List OSCArg :=
  if w.isOscToggle then
    let newState : Int := if w.oscState < 1 then 1 else 0
    ({ w with oscState := newState
              oscPayload_s := if newState < 1 then "OFF" else "ON" },
      [OSCArg.int newState])
  else if 0 ≤ w.oscPayload_f then
    ({ w with oscPayload_s := itoa (cIntCast (w.oscPayload_f * 127 + 1/2)) },
      [OSCArg.float w.oscPayload_f])
  else
    (w, (if w.oscPayload_s ≠ "" then [OSCArg.str w.oscPayload_s] else []) ++
        (if 0 ≤ w.oscPayload_i then [OSCArg.int w.oscPayload_i] else []))

/-- The full dispatch block of lines 444-510, as the updated widget plus the
ordered list of transmissions it performs: the OSC message; in two-way mode
(`dox` = `do_xRemote`) an address-only confirmation probe for toggles and
faders; the MIDI SysEx frame, unconditionally; and in one-way mode a local
acknowledgement flash. -/
def dispatch (dox : Bool) (w : OSCWidget) : OSCWidget × List DispatchEvent :=
  let wa := dispatchArgs w
  (wa.1,
    DispatchEvent.sendOSC { addr := w.oscAddress, args := wa.2 } ::
      (if dox && (w.isOscToggle || decide (0 ≤ w.oscPayload_f)) then
        [DispatchEvent.sendProbe w.oscAddress]
      else []) ++
      (DispatchEvent.sendMidi (midiBuildCommand w.oscAddress wa.1.oscPayload_s) ::
        (if !dox then [DispatchEvent.flashLed w.ledPin] else [])))

def isProbeEvent : DispatchEvent → Bool
  | DispatchEvent.sendProbe _ => true
  | _ => false

def isMidiEvent : DispatchEvent → Bool
  | DispatchEvent.sendMidi _ => true
  | _ => false

def midiFrames (evs : List DispatchEvent) : List (List Nat) :=
  evs.filterMap fun e =>
    match e with
    | DispatchEvent.sendMidi f => some f
    | _ => none

/-! ## Synchronization engine, inbound (`taskUDPLoop`, source lines 570-625) -/

inductive UdpEvent
  | write (pin : Nat) (level : PinLevel)
  | flash (pin : Nat)
  | logMatch (name : String)
  | logNoMatch
deriving DecidableEq

/-- Reconciliation of one parsed message against one widget (lines 575-619):
on an exact address match the match is logged; an integer first argument on a
Toggle widget sets the state and writes the indicator per polarity; a float
or string first argument triggers an acknowledgement flash; any other shape
(including an integer argument on a non-Toggle widget) falls through all
three branches. -/
def processMsgWidget (m : OSCMsg) (w : OSCWidget) : OSCWidget × List UdpEvent :=
  if m.addr = w.oscAddress then
    match m.args.head? with
    | some (OSCArg.int s) =>
        if w.isOscToggle then
          ({ w with oscState := s },
            [UdpEvent.logMatch w.friendlyDebugName,
             UdpEvent.write w.ledPin
               (if w.isReverseLed then
                 (if 0 < s then LED_PIN_OFF else LED_PIN_ON)
               else
                 (if 0 < s then LED_PIN_ON else LED_PIN_OFF))])
        else (w, [UdpEvent.logMatch w.friendlyDebugName])
    | some (OSCArg.float _) =>
        (w, [UdpEvent.logMatch w.friendlyDebugName, UdpEvent.flash w.ledPin])
    | some (OSCArg.str _) =>
        (w, [UdpEvent.logMatch w.friendlyDebugName, UdpEvent.flash w.ledPin])
    | none => (w, [UdpEvent.logMatch w.friendlyDebugName])
  else (w, [])

/-- Reconciliation of one parsed, well-formed message against the whole
widget table (lines 570-625): widgets are visited in order; if no address
matched, "NO MATCH" is logged and the message is dropped. -/
def processMsg (m : OSCMsg) (ws : List OSCWidget) :
    List OSCWidget × List UdpEvent :=
  let folded :=
    ws.foldr
      (fun w acc =>
        let r := processMsgWidget m w
        (r.1 :: acc.1, r.2 ++ acc.2))
      (([] : List OSCWidget), ([] : List UdpEvent))
  let matched := ws.countP fun w => m.addr == w.oscAddress
  if matched = 0 then (folded.1, folded.2 ++ [UdpEvent.logNoMatch])
  else folded

/-! ## Mode switch and poll cycle (source lines 399-409 and 649-699) -/

structure SysState where
  do_xRemote : Bool
  do_Refresh : Bool
  udpSuspended : Bool
  pokeSuspended : Bool
  doneLedOff : Bool
  widgets : List OSCWidget
deriving DecidableEq

/-- The mode-switch handler of `taskButtonsLoop` (lines 399-409), fired when
`modeButton` toggles: `do_xRemote` becomes true iff the switch reads
RELEASED, and on entering two-way mode `do_Refresh` is set and
`taskUDPLoop` (the inbound loop) is resumed.  No other task handle is
touched. -/
def modeSwitchStep (s : SysState) (released : Bool) : SysState :=
  let s1 := { s with do_xRemote := released }
  if released then { s1 with do_Refresh := true, udpSuspended := false }
  else s1

inductive PokeEvent
  | sendXremote
  | clearRefresh
  | settleDelay
  | sendProbeMsg (addr : String)
  | ledOff (pin : Nat)
deriving DecidableEq

/-- One iteration of `taskPokeOSCLoop` (lines 652-698), as the updated state
plus the ordered event trace of the iteration.  While `do_xRemote` holds and
the link is up it renews `/xremote`; if `do_Refresh` is set it first clears
the flag (line 667), then waits 20 ms (line 668), then sends one
address-only probe per Toggle widget (lines 669-679).  Otherwise it drives
every indicator inactive once per transition out of two-way mode. -/
def pokeCycle (connected : Bool) (s : SysState) : SysState × List PokeEvent :=
  if s.do_xRemote && connected then
    let s1 := { s with doneLedOff := false }
    if s1.do_Refresh then
      ({ s1 with do_Refresh := false },
        PokeEvent.sendXremote :: PokeEvent.clearRefresh ::
          PokeEvent.settleDelay ::
          ((s.widgets.filter fun w => w.isOscToggle).map fun w =>
            PokeEvent.sendProbeMsg w.oscAddress))
    else (s1, [PokeEvent.sendXremote])
  else
    if s.doneLedOff then (s, [])
    else
      ({ s with doneLedOff := true },
        s.widgets.map fun w => PokeEvent.ledOff w.ledPin)

def isPokeProbe : PokeEvent → Bool
  | PokeEvent.sendProbeMsg _ => true
  | _ => false

/-- True iff some address-only probe occurs after the `do_Refresh` flag is
cleared in a poll-cycle event trace. -/
def probeAfterClear : List PokeEvent → Bool
  | [] => false
  | PokeEvent.clearRefresh :: rest => rest.any isPokeProbe
  | _ :: rest => probeAfterClear rest

/-- A system state with an established link, one-way mode, the inbound loop
self-suspended (as it is while `do_xRemote` is false) and the poll loop
running: the situation just before the operator flips the mode switch. -/
def sInit : SysState :=
  { do_xRemote := false
    do_Refresh := false
    udpSuspended := true
    pokeSuspended := false
    doneLedOff := true
    widgets := myWidgets }

end X32

namespace X32

/-! ## Helper lemmas -/

/-- Once `wasPressed` is false, no further hold tick or the release edge can
fire any action for the rest of the hold. -/
theorem countEmits_notPressed (w : OSCWidget) (h : w.wasPressed = false)
    (ts : List Nat) (tr : Nat) :
    countEmits w ((ts.map fun t => (ButtonEvent.noEdge, t)) ++
      [(ButtonEvent.releasedEdge, tr)]) = 0 := by
  induction ts generalizing w with
  | nil => simp [countEmits, emits, buttonAction, action_NOTHING]
  | cons t rest ih =>
      have h1 : buttonAction w ButtonEvent.noEdge t = (w, action_NOTHING) := by
        simp [buttonAction, h]
      have h2 := ih w h
      simp only [List.map_cons, List.cons_append, countEmits, h1, emits,
        List.append_eq] at h2 ⊢
      rw [h2]
      simp [action_NOTHING]

/-- While held with `wasPressed` set, a long-press widget fires exactly once
iff some hold tick observes an elapsed time above the threshold. -/
theorem countEmits_pressed (w : OSCWidget)
    (htr : w.actionTrigger = action_LONG_PRESS) (hp : w.wasPressed = true)
    (ts : List Nat) (tr : Nat) :
    countEmits w ((ts.map fun t => (ButtonEvent.noEdge, t)) ++
        [(ButtonEvent.releasedEdge, tr)])
      = if ts.any (fun t => decide (LONG_PRESS_DURATION < t - w.pressedMillis))
        then 1 else 0 := by
  induction ts generalizing w with
  | nil => simp [countEmits, emits, buttonAction, action_NOTHING]
  | cons t rest ih =>
      by_cases hc : LONG_PRESS_DURATION < t - w.pressedMillis
      · have h1 : buttonAction w ButtonEvent.noEdge t
            = ({ w with wasPressed := false }, action_LONG_PRESS) := by
          simp [buttonAction, hp, hc]
        have h2 := countEmits_notPressed { w with wasPressed := false } rfl rest tr
        simp only [List.map_cons, List.cons_append, countEmits, h1, emits,
          List.append_eq] at h2 ⊢
        rw [h2]
        simp [htr, hc, action_LONG_PRESS, action_NOTHING]
      · have h1 : buttonAction w ButtonEvent.noEdge t = (w, action_NOTHING) := by
          simp [buttonAction, hc]
        have h2 := ih w htr hp
        simp only [List.map_cons, List.cons_append, countEmits, h1, emits,
          List.append_eq] at h2 ⊢
        rw [h2]
        simp [hc, action_NOTHING]

/-! ## Claim C1 -/

/-- Claim C1 counterexample.  The claim states that a Short-press widget's
action is emitted on the release edge (when release precedes the long-press
threshold) and nowhere else.  On the code, widget "Button A" (trigger kind
Short-press) emits its action on the press edge itself, and a release edge
only 100 ms after the press (well before the 3000 ms threshold) emits
nothing: both halves of the claim fail. -/
theorem shortPress_release_edge_cex :
    emits buttonA ButtonEvent.pressedEdge 0 = true
    ∧ emits { buttonA with wasPressed := true, pressedMillis := 0 }
        ButtonEvent.releasedEdge 100 = false := by
  decide

/-- Claim C1 (amended): for every widget whose trigger kind is Short-press,
the Input State Machine emits its Short-press Action on the press edge of
the button, immediately and unconditionally — and at no other point of the
press/hold/release sequence; in particular nothing is emitted on the release
edge, regardless of how the release timing compares with the long-press
threshold. -/
theorem shortPress_emits_iff_press_edge (w : OSCWidget)
    (h : w.actionTrigger = action_PRESS) (ev : ButtonEvent) (now : Nat) :
    emits w ev now = true ↔ ev = ButtonEvent.pressedEdge := by
  cases ev with
  | pressedEdge =>
      simp [emits, buttonAction, h, action_PRESS, action_NOTHING]
  | releasedEdge =>
      simp [emits, buttonAction, h, action_PRESS, action_NOTHING]
  | noEdge =>
      simp only [emits, buttonAction]
      split <;> simp [h, action_PRESS, action_LONG_PRESS, action_NOTHING]

/-- Witness for C1's amended theorem at widget "Button A". -/
theorem shortPress_emits_iff_press_edge_witness :
    emits buttonA ButtonEvent.pressedEdge 5 = true :=
  (shortPress_emits_iff_press_edge buttonA rfl ButtonEvent.pressedEdge 5).mpr rfl

/-! ## Claim C2 -/

/-- Claim C2: for every widget whose trigger kind is Long-press, one physical
hold (press edge, hold ticks at times `ts`, release edge) emits the
Long-press Action exactly once if some hold tick observes elapsed time above
the threshold, and zero times otherwise — the `wasPressed` pending flag
prevents re-firing on subsequent ticks while still held; moreover the
release edge itself produces `action_NOTHING`, so no action of any kind is
emitted on the eventual release. -/
theorem longPress_fires_exactly_once (w : OSCWidget)
    (h : w.actionTrigger = action_LONG_PRESS) (t0 : Nat) (ts : List Nat)
    (tr : Nat) :
    (countEmits w (holdTrace t0 ts tr)
        = if ts.any (fun t => decide (LONG_PRESS_DURATION < t - t0))
          then 1 else 0)
    ∧ ∀ (v : OSCWidget) (n : Nat),
        (buttonAction v ButtonEvent.releasedEdge n).2 = action_NOTHING := by
  refine ⟨?_, fun v n => rfl⟩
  have h1 : buttonAction w ButtonEvent.pressedEdge t0
      = ({ w with pressedMillis := t0, wasPressed := true }, action_PRESS) := rfl
  have h2 := countEmits_pressed { w with pressedMillis := t0, wasPressed := true }
    (by simpa using h) rfl ts tr
  simp only [holdTrace, countEmits, h1, emits, List.append_eq] at h2 ⊢
  rw [h2]
  simp [h, action_PRESS, action_LONG_PRESS, action_NOTHING]

/-- Witness for C2 at widget "Bttn A__" (trigger kind Long-press): a hold
with ticks at 1000, 4000 and 4500 ms crosses the 3000 ms threshold and fires
exactly once (the 4500 ms tick does not re-fire). -/
theorem longPress_fires_exactly_once_witness :
    countEmits bttnALong (holdTrace 0 [1000, 4000, 4500] 5000) = 1 := by
  have h := (longPress_fires_exactly_once bttnALong rfl 0 [1000, 4000, 4500] 5000).1
  rw [h]
  decide

/-! ## Claim C3 -/

/-- Claim C3 counterexample.  The claim states that after switching
OneWay→TwoWay with a link established, the Synchronization Engine sends the
address-only probes *before* the refresh-pending flag is cleared.  On the
code, the mode switch does set `do_Refresh` (and resumes the inbound UDP
loop), but the next poll cycle clears `do_Refresh` first (line 667) and only
then — after the settle delay — sends the probes: a probe occurs *after* the
clear in the cycle's event trace. -/
theorem refresh_probe_after_clear_cex :
    (modeSwitchStep sInit true).do_Refresh = true
    ∧ (modeSwitchStep sInit true).udpSuspended = false
    ∧ probeAfterClear (pokeCycle true (modeSwitchStep sInit true)).2 = true := by
  decide

/-- Claim C3 (amended): switching from OneWay to TwoWay while a link is
established sets the refresh-pending flag and resumes the inbound (UDP)
loop; the poll loop, which is not suspended while the link is up, on its
next cycle sends the presence-renewal message, clears the refresh-pending
flag, and after the short settle delay sends exactly one address-only probe
per Toggle widget — the flag is cleared before the probes are sent, not
after — and the following cycle sends no further probes. -/
theorem modeSwitch_refresh_sequence (s : SysState)
    (h1 : s.do_xRemote = false) (h2 : s.pokeSuspended = false) :
    (modeSwitchStep s true).do_Refresh = true
    ∧ (modeSwitchStep s true).udpSuspended = false
    ∧ (modeSwitchStep s true).pokeSuspended = false
    ∧ (pokeCycle true (modeSwitchStep s true)).2
        = PokeEvent.sendXremote :: PokeEvent.clearRefresh ::
            PokeEvent.settleDelay ::
            ((s.widgets.filter fun w => w.isOscToggle).map fun w =>
              PokeEvent.sendProbeMsg w.oscAddress)
    ∧ (pokeCycle true (modeSwitchStep s true)).1.do_Refresh = false
    ∧ (pokeCycle true (pokeCycle true (modeSwitchStep s true)).1).2
        = [PokeEvent.sendXremote] := by
  simp [modeSwitchStep, pokeCycle, h2]

/-- Witness for C3's amended theorem: from the concrete pre-switch state,
the first poll cycle after the switch renews the subscription, clears the
flag, and probes exactly the two Toggle widgets, in table order. -/
theorem modeSwitch_refresh_sequence_witness :
    (pokeCycle true (modeSwitchStep sInit true)).2
      = [PokeEvent.sendXremote, PokeEvent.clearRefresh, PokeEvent.settleDelay,
         PokeEvent.sendProbeMsg "/dca/5/on",
         PokeEvent.sendProbeMsg "/config/mute/6"] := by
  have h := (modeSwitch_refresh_sequence sInit rfl rfl).2.2.2.1
  rw [h]
  decide

/-! ## Claim C4 -/

/-- Claim C4: on every dispatched Action the confirmation probe (a second,
argument-less message to the widget's own address) is sent iff
ConnectivityMode is TwoWay (`do_xRemote`) and the widget is of Toggle or
Fader kind — never for Fire kind — while the serial-bus (MIDI SysEx) frame
is transmitted exactly once on every dispatch, in both connectivity
modes. -/
theorem probe_iff_twoway_toggle_or_fader (dox : Bool) (w : OSCWidget) :
    ((dispatch dox w).2.countP isProbeEvent
        = if dox = true ∧ (widgetKind w = WidgetKind.toggle
              ∨ widgetKind w = WidgetKind.fader) then 1 else 0)
    ∧ (dispatch dox w).2.countP isMidiEvent = 1 := by
  constructor
  · cases dox <;> by_cases ht : w.isOscToggle <;>
      by_cases hf : (0 : ℚ) ≤ w.oscPayload_f <;>
      simp [dispatch, widgetKind, isProbeEvent, isMidiEvent, ht, hf,
        List.countP_cons, List.countP_append]
  · cases dox <;> by_cases ht : w.isOscToggle <;>
      by_cases hf : (0 : ℚ) ≤ w.oscPayload_f <;>
      simp [dispatch, isProbeEvent, isMidiEvent, ht, hf,
        List.countP_cons, List.countP_append]

/-! ## Claim C5 -/

/-- Claim C5: an inbound message whose address exactly matches a Toggle-kind
widget and whose first argument is the integer `S` sets the widget's logical
state to `S` and drives the indicator pin to (`S` active) XOR (Reversed
polarity): the written level is active (`LED_PIN_ON`) iff `0 < S` differs
from `isReverseLed`. -/
theorem toggle_inbound_sets_state_led (m : OSCMsg) (w : OSCWidget) (s : Int)
    (hA : m.addr = w.oscAddress) (hI : m.args.head? = some (OSCArg.int s))
    (hT : w.isOscToggle = true) :
    processMsgWidget m w
      = ({ w with oscState := s },
         [UdpEvent.logMatch w.friendlyDebugName,
          UdpEvent.write w.ledPin
            (if decide (0 < s) != w.isReverseLed then LED_PIN_ON
             else LED_PIN_OFF)]) := by
  by_cases hs : 0 < s <;> cases hrev : w.isReverseLed <;>
    simp [processMsgWidget, hA, hI, hT, hs, hrev]

/-- Witness for C5 at widget "Button E" (Toggle kind, Reversed polarity,
address "/dca/5/on"): state 1 with reversed polarity drives the indicator
inactive. -/
theorem toggle_inbound_sets_state_led_witness :
    processMsgWidget { addr := "/dca/5/on", args := [OSCArg.int 1] } buttonE
      = ({ buttonE with oscState := 1 },
         [UdpEvent.logMatch "Button E", UdpEvent.write 4 LED_PIN_OFF]) := by
  have h := toggle_inbound_sets_state_led
    { addr := "/dca/5/on", args := [OSCArg.int 1] } buttonE 1 rfl rfl rfl
  rw [h]
  decide

/-! ## Claim C6 -/

/-- Claim C6: dispatching a Toggle-kind Action flips the logical state 0→1
or 1→0; the remote-control message carries the new state as its single
integer argument; the serial frame is built with payload text "ON" when the
new state is 1 and "OFF" when it is 0; and dispatching the same Toggle twice
returns the state to its starting value. -/
theorem toggle_dispatch_flips (dox : Bool) (w : OSCWidget)
    (hT : w.isOscToggle = true) (hS : w.oscState = 0 ∨ w.oscState = 1) :
    ((dispatch dox w).1.oscState = 1 - w.oscState)
    ∧ ((dispatch dox w).2.head?
        = some (DispatchEvent.sendOSC
            { addr := w.oscAddress, args := [OSCArg.int (1 - w.oscState)] }))
    ∧ ((dispatch dox w).1.oscPayload_s
        = if w.oscState = 0 then "ON" else "OFF")
    ∧ (midiFrames (dispatch dox w).2
        = [midiBuildCommand w.oscAddress
            (if w.oscState = 0 then "ON" else "OFF")])
    ∧ ((dispatch dox (dispatch dox w).1).1.oscState = w.oscState) := by
  rcases hS with h0 | h1
  · cases dox <;> simp [dispatch, dispatchArgs, midiFrames, hT, h0]
  · cases dox <;> simp [dispatch, dispatchArgs, midiFrames, hT, h1]

/-- Witness for C6 at widget "Button F" (Toggle kind, state 0): one dispatch
takes the state to 1 and a second dispatch returns it to 0. -/
theorem toggle_dispatch_flips_witness :
    (dispatch true buttonF).1.oscState = 1
    ∧ (dispatch true (dispatch true buttonF).1).1.oscState = 0 := by
  have h := toggle_dispatch_flips true buttonF rfl (Or.inl rfl)
  refine ⟨?_, ?_⟩
  · rw [h.1]
    decide
  · rw [h.2.2.2.2]
    decide

/-! ## Claim C7 -/

/-- Claim C7: for a Fader-kind widget with scalar value `v` in `[0,1]`, the
serial-bus frame payload is the decimal text rendering of `round (v * 127)`:
the code computes `(int)(v*127 + 0.5)`, which for non-negative `v` equals
`⌊v*127 + 1/2⌋ = round (v*127)`. -/
theorem fader_payload_rounds (dox : Bool) (w : OSCWidget)
    (hT : w.isOscToggle = false) (h0 : 0 ≤ w.oscPayload_f)
    (h1 : w.oscPayload_f ≤ 1) :
    ((dispatch dox w).1.oscPayload_s
        = toString (round (w.oscPayload_f * 127)))
    ∧ (midiFrames (dispatch dox w).2
        = [midiBuildCommand w.oscAddress
            (toString (round (w.oscPayload_f * 127)))]) := by
  have h127 : (0 : ℚ) ≤ w.oscPayload_f * 127 :=
    mul_nonneg h0 (by norm_num)
  have hpos : (0 : ℚ) ≤ w.oscPayload_f * 127 + 2⁻¹ := by
    have hhalf : (0 : ℚ) ≤ 2⁻¹ := by norm_num
    linarith
  have hcast : cIntCast (w.oscPayload_f * 127 + 2⁻¹)
      = round (w.oscPayload_f * 127) := by
    rw [cIntCast, if_pos hpos, round_eq]
    norm_num
  cases dox <;>
    simp [dispatch, dispatchArgs, midiFrames, itoa, hT, h0, hcast]

/-- Witness for C7 at the example Fader widget: scalar 0.75 renders as "95",
scalar 0 as "0" and scalar 1 as "127". -/
theorem fader_payload_rounds_witness :
    ((dispatch true (faderExample (3/4))).1.oscPayload_s = "95")
    ∧ ((dispatch true (faderExample 0)).1.oscPayload_s = "0")
    ∧ ((dispatch true (faderExample 1)).1.oscPayload_s = "127") := by
  have h75 := (fader_payload_rounds true (faderExample (3/4)) rfl
    (by norm_num [faderExample, mkWidget]) (by norm_num [faderExample, mkWidget])).1
  have h00 := (fader_payload_rounds true (faderExample 0) rfl
    (by norm_num [faderExample, mkWidget]) (by norm_num [faderExample, mkWidget])).1
  have h10 := (fader_payload_rounds true (faderExample 1) rfl
    (by norm_num [faderExample, mkWidget]) (by norm_num [faderExample, mkWidget])).1
  refine ⟨?_, ?_, ?_⟩
  · rw [h75]
    have hr : round ((faderExample (3/4)).oscPayload_f * 127) = 95 := by
      show round ((3/4 : ℚ) * 127) = 95
      rw [round_eq]
      norm_num [Int.floor_eq_iff]
    rw [hr]
    decide
  · rw [h00]
    have hr : round ((faderExample 0).oscPayload_f * 127) = 0 := by
      show round ((0 : ℚ) * 127) = 0
      rw [round_eq]
      norm_num [Int.floor_eq_iff]
    rw [hr]
    decide
  · rw [h10]
    have hr : round ((faderExample 1).oscPayload_f * 127) = 127 := by
      show round ((1 : ℚ) * 127) = 127
      rw [round_eq]
      norm_num [Int.floor_eq_iff]
    rw [hr]
    decide

/-! ## Claim C8 -/

/-- Claim C8: a well-formed inbound message whose address matches zero
configured widgets mutates no widget, writes no indicator pin, starts no
indicator flash, and raises no error — the message is logged ("NO MATCH")
and dropped.  (Malformed messages are filtered upstream by the parser's
`hasError` check, lines 570 and 625-631, before reaching this path.) -/
theorem unmatched_message_no_effect (m : OSCMsg) (ws : List OSCWidget)
    (h : ∀ w ∈ ws, m.addr ≠ w.oscAddress) :
    processMsg m ws = (ws, [UdpEvent.logNoMatch]) := by
  have hfold : ws.foldr
      (fun w acc =>
        let r := processMsgWidget m w
        (r.1 :: acc.1, r.2 ++ acc.2))
      (([] : List OSCWidget), ([] : List UdpEvent)) = (ws, []) := by
    induction ws with
    | nil => rfl
    | cons w rest ih =>
        have hw : processMsgWidget m w = (w, []) := by
          simp [processMsgWidget, h w (by simp)]
        have hrest : ∀ v ∈ rest, m.addr ≠ v.oscAddress := by
          intro v hv
          exact h v (by simp [hv])
        simp [List.foldr_cons, hw, ih hrest]
  have hcount : (ws.countP fun w => m.addr == w.oscAddress) = 0 := by
    rw [List.countP_eq_zero]
    intro w hw
    simpa using h w hw
  simp [processMsg, hfold, hcount]

/-- Witness for C8: the address "/ch/01/mix/on" is not configured in the
widget table, so the message is dropped with only a "NO MATCH" log entry. -/
theorem unmatched_message_no_effect_witness :
    processMsg { addr := "/ch/01/mix/on", args := [OSCArg.int 1] } myWidgets
      = (myWidgets, [UdpEvent.logNoMatch]) :=
  unmatched_message_no_effect
    { addr := "/ch/01/mix/on", args := [OSCArg.int 1] } myWidgets (by decide)

/-! ## Claim C9 -/

/-- Claim C9 (code bug): the serial-frame construction is claimed to produce
exactly preamble ++ address ++ separator ++ payload ++ terminator with no
truncation, but `strcat` stops at the `0x00` byte at index 1 of the declared
preamble `midiHeader = [0xF0, 0x00, 0x20, 0x32, 0x32]` (commented in the
source as the "X32 OSC preamble"), so every frame carries only `0xF0` of the
five declared preamble bytes.  At the failing input
(`oscCommand` = "/load", `oscArgument` = "snippet"), the built frame equals
the truncated concatenation and differs from the declared one. -/
theorem midi_preamble_truncated :
    midiBuildCommand "/load" "snippet"
        = [0xF0] ++ strBytes "/load" ++ [0x20] ++ strBytes "snippet" ++ [0xF7]
    ∧ midiBuildCommand "/load" "snippet"
        ≠ midiHeader ++ strBytes "/load" ++ midiSpacer ++ strBytes "snippet"
            ++ midiFooter
    ∧ (midiBuildCommand "/load" "snippet").length = 15
    ∧ (midiHeader ++ strBytes "/load" ++ midiSpacer ++ strBytes "snippet"
        ++ midiFooter).length = 19 := by
  decide

/-! ## Claim C10 -/

/-- Claim C10: an inbound message whose address matches a widget but whose
first argument is an integer while the widget is not Toggle kind leaves the
widget unchanged, writes no indicator pin and starts no flash: the match is
logged (and counted) but falls through all three reconciliation branches. -/
theorem int_arg_non_toggle_no_effect (m : OSCMsg) (w : OSCWidget) (s : Int)
    (hA : m.addr = w.oscAddress) (hI : m.args.head? = some (OSCArg.int s))
    (hT : w.isOscToggle = false) :
    processMsgWidget m w = (w, [UdpEvent.logMatch w.friendlyDebugName]) := by
  simp [processMsgWidget, hA, hI, hT]

/-- Witness for C10 at widget "Button A" (Fire kind): an integer argument
arriving at its address "/load" changes nothing and only logs the match. -/
theorem int_arg_non_toggle_no_effect_witness :
    processMsgWidget { addr := "/load", args := [OSCArg.int 5] } buttonA
      = (buttonA, [UdpEvent.logMatch "Button A"]) := by
  have h := int_arg_non_toggle_no_effect
    { addr := "/load", args := [OSCArg.int 5] } buttonA 5 rfl rfl rfl
  rw [h]
  decide

end X32
